import Mathlib

/-!
Verification development for the funding-rate signal bot.

The source is a TypeScript service pipeline. Numbers are modelled by exact
rationals; JavaScript `Math.round` is floor of x + 1/2 (round half toward
positive infinity), and JavaScript falsy coercions on numbers (`x || d`,
`!x`) are modelled explicitly where the source relies on them. I/O results
(REST responses, sink delivery) are passed in as explicit parameters, and
the two `Math.random()` draws made while building a signal card are passed
in as explicit rational parameters in [0, 1).
-/

namespace FundingBot

/-- JavaScript Math.round over exact rationals: floor of x + 1/2. -/
def jsRound (x : ℚ) : ℚ := ⌊x + 1/2⌋

/-- Round to two decimal places, as the source writes Math.round(x * 100) / 100. -/
def round2 (x : ℚ) : ℚ := jsRound (x * 100) / 100

/-- JavaScript falsy coercion for an optional number: `v || undefined` maps both
null and 0 to undefined. -/
def orUndefined (x : Option ℚ) : Option ℚ :=
  match x with
  | none => none
  | some v => if v = 0 then none else some v

/-! ## Indicator engine (IndicatorService) -/

/-- Successive differences prices[i] - prices[i-1], oldest first. -/
def diffList : List ℚ → List ℚ
  | [] => []
  | [_] => []
  | a :: b :: rest => (b - a) :: diffList (b :: rest)

/-- Initial average gain and loss over the first `period` changes, as the
first loop of calculateRSI accumulates them. -/
def initialAverages (period : ℕ) (diffs : List ℚ) : ℚ × ℚ :=
  let first := diffs.take period
  let gains := (first.map (fun c => if 0 < c then c else 0)).sum
  let losses := (first.map (fun c => if 0 < c then 0 else |c|)).sum
  (gains / period, losses / period)

/-- One step of Wilder smoothing, as the second loop of calculateRSI. -/
def wilderStep (period : ℕ) (acc : ℚ × ℚ) (change : ℚ) : ℚ × ℚ :=
  let gain := if 0 < change then change else 0
  let loss := if change < 0 then |change| else 0
  ((acc.1 * ((period : ℚ) - 1) + gain) / period,
   (acc.2 * ((period : ℚ) - 1) + loss) / period)

/-- Wilder-smoothed average gain and loss over a price series. -/
def wilderAverages (prices : List ℚ) (period : ℕ) : ℚ × ℚ :=
  let diffs := diffList prices
  (diffs.drop period).foldl (wilderStep period) (initialAverages period diffs)

/-- IndicatorService.calculateRSI. Returns none when fewer than period+1
prices are available, 100 when the smoothed average loss is zero, and the
two-decimal rounded RSI otherwise. -/
def calculateRSI (prices : List ℚ) (period : ℕ) : Option ℚ :=
  if prices.length < period + 1 then none
  else if (wilderAverages prices period).2 = 0 then some 100
  else some (round2 (100 - 100 /
    (1 + (wilderAverages prices period).1 / (wilderAverages prices period).2)))

/-- IndicatorService.calculateMomentum: percent change over `period` steps. -/
def calculateMomentum (prices : List ℚ) (period : ℕ) : Option ℚ :=
  if prices.length < period + 1 then none
  else
    let currentPrice := prices.getD (prices.length - 1) 0
    let pastPrice := prices.getD (prices.length - period - 1) 0
    some (round2 ((currentPrice - pastPrice) / pastPrice * 100))

/-- The rsi and momentum fields of IndicatorData as calculateAllIndicators
fills them; the source writes `rsi || undefined`, so a computed value of
exactly 0 becomes undefined. The volumeSpike field is omitted: the call
sites in the signal path never supply an average volume. -/
structure IndicatorData where
  rsi : Option ℚ
  momentum : Option ℚ
  deriving Repr, DecidableEq

/-- IndicatorService.calculateAllIndicators restricted to the rsi and
momentum fields. -/
def calculateAllIndicators (prices : List ℚ) : IndicatorData :=
  { rsi := orUndefined (calculateRSI prices 14)
    momentum := orUndefined (calculateMomentum prices 10) }

/-- IndicatorService.isExhaustion; `!rsi || !momentum` is falsy on null and 0. -/
def isExhaustion (rsi momentum : Option ℚ) : Bool :=
  match rsi, momentum with
  | some r, some m =>
      if r = 0 ∨ m = 0 then false
      else decide (2 < |m| ∧ (70 ≤ r ∨ r ≤ 30))
  | _, _ => false

/-! ## Scoring engine (ScoringEngineService) -/

/-- ScoringEngineService.scoreFundingExtremity: step function of the
absolute funding rate (in percent). -/
def scoreFundingExtremity (fundingRate : ℚ) : ℚ :=
  let absFunding := |fundingRate|
  if 0.04 ≤ absFunding then 100
  else if 0.03 ≤ absFunding then 90
  else if 0.02 ≤ absFunding then 75
  else if 0.015 ≤ absFunding then 60
  else if 0.01 ≤ absFunding then 45
  else if 0.005 ≤ absFunding then 30
  else if 0.002 ≤ absFunding then 15
  else 0

/-- ScoringEngineService.scoreFundingDelta; `!fundingDelta` is falsy on 0. -/
def scoreFundingDelta (fundingRate fundingDelta : ℚ) : ℚ :=
  if fundingDelta = 0 then 50
  else
    let absDelta := |fundingDelta|
    if 0.01 ≤ absDelta then 100
    else if 0.005 ≤ absDelta then 85
    else if 0.002 ≤ absDelta then 70
    else if 0.001 ≤ absDelta then 55
    else
      let isReinforcing :=
        (0 < fundingRate ∧ 0 < fundingDelta) ∨ (fundingRate < 0 ∧ fundingDelta < 0)
      if isReinforcing then min (60 + absDelta * 10000) 100
      else 40

/-- ScoringEngineService.scoreRSIMomentum; `!rsi || !momentum` is falsy on
null and on 0, both scoring the neutral 50. -/
def scoreRSIMomentum (rsi momentum : Option ℚ) : ℚ :=
  match rsi, momentum with
  | some r, some m =>
      if r = 0 ∨ m = 0 then 50
      else
        let absMomentum := |m|
        if 70 ≤ r ∧ 0 < m then 100
        else if r ≤ 30 ∧ m < 0 then 100
        else if 2 < absMomentum ∧ 40 ≤ r ∧ r ≤ 60 then 85
        else if 60 ≤ r ∧ 1 < m then 70
        else if r ≤ 40 ∧ m < -1 then 70
        else if 0.5 < absMomentum then 50
        else 30
  | _, _ => 50

/-- ScoringEngineService.scoreVolumeSpike: placeholder constant 60, neutral
50 when the volume is missing (falsy, so also when it is 0). -/
def scoreVolumeSpike (volume24h : ℚ) : ℚ :=
  if volume24h = 0 then 50 else 60

/-- ScoringEngineService.scoreBTCContext over an optional (price, funding) pair. -/
def scoreBTCContext (btcContext : Option (ℚ × ℚ)) : ℚ :=
  match btcContext with
  | none => 50
  | some bc =>
      let btcFunding := bc.2
      if 0.02 ≤ |btcFunding| then 80
      else if 0.01 ≤ |btcFunding| then 65
      else if 0.005 ≤ |btcFunding| then 55
      else 50

/-- The transient per-evaluation context, as SignalContext is actually
populated by buildSignalContext: rsi and momentum may be missing. -/
structure SignalContext where
  fundingRate : ℚ
  fundingDelta : ℚ
  rsi : Option ℚ
  price : ℚ
  volume24h : ℚ
  momentum : Option ℚ
  btcContext : Option (ℚ × ℚ)
  deriving Repr, DecidableEq

/-- ScoringEngineService.calculateScore: weighted sum of the five
sub-scores, rounded to two decimals. -/
def calculateScore (context : SignalContext) : ℚ :=
  let totalScore :=
    scoreFundingExtremity context.fundingRate * (40 / 100)
    + scoreFundingDelta context.fundingRate context.fundingDelta * (20 / 100)
    + scoreRSIMomentum context.rsi context.momentum * (20 / 100)
    + scoreVolumeSpike context.volume24h * (10 / 100)
    + scoreBTCContext context.btcContext * (10 / 100)
  round2 totalScore

/-- ScoringEngineService.meetsThreshold with the default MIN_SCORE_THRESHOLD of 75. -/
def meetsThreshold (score : ℚ) : Bool :=
  decide (75 ≤ score)

/-! ## Rule evaluator (SignalValidatorService) -/

/-- Signal type enumeration from the signal entity. -/
inductive SignalType
  | REVERSAL
  | TREND
  | DIVERGENCE
  deriving Repr, DecidableEq

/-- Signal bias enumeration from the signal entity. -/
inductive SignalBias
  | LONG
  | SHORT
  deriving Repr, DecidableEq

/-- The funding-bias label attached to a signal. -/
inductive FundingBias
  | longOvercrowded
  | shortOvercrowded
  deriving Repr, DecidableEq

/-- The momentum classification written into the signal card. -/
inductive MomentumLabel
  | Exhaustion
  | Expansion
  deriving Repr, DecidableEq

/-- The human context message, abstracting the string rendering of
buildContextMessage: either the joined list of condition parts or the
generic fallback naming the funding bias and the rate. -/
inductive ContextMsg
  | parts (l : List String)
  | generic (fundingBias : FundingBias) (rate : ℚ)
  deriving Repr, DecidableEq

/-- Movement display block of a signal. -/
structure Movement where
  up : ℚ
  down : ℚ
  deriving Repr, DecidableEq

/-- The Signal record as createSignal fills it. -/
structure Signal where
  symbol : String
  signalType : SignalType
  bias : SignalBias
  fundingRate : ℚ
  fundingDelta : ℚ
  rsi : ℚ
  rsi15m : ℚ
  rsi5m : ℚ
  rsi1m : ℚ
  score : ℚ
  price : ℚ
  timeframe : String
  context : ContextMsg
  momentum : MomentumLabel
  fundingBias : FundingBias
  movement : Movement
  deriving Repr, DecidableEq

/-- SignalValidatorService.buildContextMessage. Every branch of the final
signal-type match pushes a part, so the generic fallback is unreachable;
it is kept to mirror the source. -/
def buildContextMessage (signalType : SignalType) (context : SignalContext)
    (fundingBias : FundingBias) : ContextMsg :=
  let ps0 : List String :=
    match context.momentum with
    | some m =>
        if m = 0 then []
        else if 5 < |m| then ["Rapid pump"]
        else if 2 < |m| then ["Strong move"]
        else []
    | none => []
  let ps1 : List String :=
    match context.rsi with
    | some r =>
        if r = 0 then ps0
        else if 75 ≤ r ∨ r ≤ 25 then ps0 ++ ["RSI extreme"]
        else if 70 ≤ r ∨ r ≤ 30 then ps0 ++ ["RSI overextended"]
        else ps0
    | none => ps0
  let ps2 : List String :=
    if 0.04 ≤ |context.fundingRate| then ps1 ++ ["extreme funding"]
    else if 0.02 ≤ |context.fundingRate| then ps1 ++ ["high funding"]
    else ps1
  let ps3 : List String :=
    match signalType with
    | .REVERSAL => ps2 ++ ["at resistance"]
    | .TREND => ps2 ++ ["trend continuation"]
    | .DIVERGENCE => ps2 ++ ["divergence risk"]
  if ps3 = [] then .generic fundingBias context.fundingRate
  else .parts ps3

/-- Clamp a jittered RSI to [0, 100], as Math.max(0, Math.min(100, x)). -/
def clampRSI (x : ℚ) : ℚ := max 0 (min 100 x)

/-- SignalValidatorService.createSignal. The two Math.random() draws used
for the display-only 15m and 5m RSI jitter are the parameters r1 and r2
(each in [0, 1) at runtime). -/
def createSignal (symbol : String) (signalType : SignalType) (bias : SignalBias)
    (context : SignalContext) (fundingBias : FundingBias) (r1 r2 : ℚ) : Signal :=
  let score := calculateScore context
  let exhaustion := isExhaustion context.rsi context.momentum
  let momentumLabel := if exhaustion then MomentumLabel.Exhaustion else MomentumLabel.Expansion
  let timeframe := "1m"
  let contextMessage := buildContextMessage signalType context fundingBias
  let momentumValue := context.momentum.getD 0
  let movementUp := |if 0 < momentumValue then momentumValue else 2|
  let movementDown := |if momentumValue < 0 then |momentumValue| else 2|
  let rsi := context.rsi.getD 0
  let rsi15m := rsi + (r1 * 5 - 2.5)
  let rsi5m := rsi + (r2 * 3 - 1.5)
  let rsi1m := rsi
  { symbol := symbol
    signalType := signalType
    bias := bias
    fundingRate := context.fundingRate
    fundingDelta := context.fundingDelta
    rsi := rsi
    rsi15m := clampRSI rsi15m
    rsi5m := clampRSI rsi5m
    rsi1m := clampRSI rsi1m
    score := score
    price := context.price
    timeframe := timeframe
    context := contextMessage
    momentum := momentumLabel
    fundingBias := fundingBias
    movement := { up := movementUp, down := movementDown } }

/-- Test a predicate under an optional value; false on none, mirroring the
explicit `x !== null && p(x)` checks of the detection rules. -/
def optTest (p : ℚ → Bool) : Option ℚ → Bool
  | some x => p x
  | none => false

/-- SignalValidatorService.detectRSIConfluenceSignal. -/
def detectRSIConfluenceSignal (symbol : String) (context : SignalContext)
    (r1 r2 : ℚ) : Option Signal :=
  if optTest (fun r => decide (75 < r)) context.rsi
      && decide (0.01 < context.fundingRate) then
    some (createSignal symbol .REVERSAL .SHORT context .longOvercrowded r1 r2)
  else if optTest (fun r => decide (r < 30)) context.rsi
      && decide (context.fundingRate < -0.01) then
    some (createSignal symbol .REVERSAL .LONG context .shortOvercrowded r1 r2)
  else none

/-- SignalValidatorService.detectReversalSignal: the overextension rule.
When a side condition matches but the delta does not accelerate, the
source falls through without emitting. -/
def detectReversalSignal (symbol : String) (context : SignalContext)
    (r1 r2 : ℚ) : Option Signal :=
  if (decide (0.04 ≤ context.fundingRate)
      && optTest (fun r => decide (70 ≤ r)) context.rsi
      && optTest (fun m => decide (1 < m)) context.momentum)
      && decide (0 < context.fundingDelta) then
    some (createSignal symbol .REVERSAL .SHORT context .longOvercrowded r1 r2)
  else if (decide (context.fundingRate ≤ -0.04)
      && optTest (fun r => decide (r ≤ 30)) context.rsi
      && optTest (fun m => decide (m < -1)) context.momentum)
      && decide (context.fundingDelta < 0) then
    some (createSignal symbol .REVERSAL .LONG context .shortOvercrowded r1 r2)
  else none

/-- SignalValidatorService.detectTrendSignal. -/
def detectTrendSignal (symbol : String) (context : SignalContext)
    (r1 r2 : ℚ) : Option Signal :=
  if decide (0.005 ≤ context.fundingRate) && decide (context.fundingRate ≤ 0.02)
      && decide (0 < context.fundingDelta)
      && optTest (fun m => decide (0 < m)) context.momentum then
    some (createSignal symbol .TREND .LONG context .longOvercrowded r1 r2)
  else if decide (context.fundingRate ≤ -0.005) && decide (-0.02 ≤ context.fundingRate)
      && decide (context.fundingDelta < 0)
      && optTest (fun m => decide (m < 0)) context.momentum then
    some (createSignal symbol .TREND .SHORT context .shortOvercrowded r1 r2)
  else none

/-- SignalValidatorService.detectDivergenceSignal. -/
def detectDivergenceSignal (symbol : String) (context : SignalContext)
    (r1 r2 : ℚ) : Option Signal :=
  if optTest (fun m => decide (1 < m)) context.momentum
      && decide (context.fundingRate < -0.005) then
    some (createSignal symbol .DIVERGENCE .SHORT context .shortOvercrowded r1 r2)
  else if optTest (fun m => decide (m < -1)) context.momentum
      && decide (0.005 < context.fundingRate) then
    some (createSignal symbol .DIVERGENCE .LONG context .longOvercrowded r1 r2)
  else none

/-- The rule chain of validateSignal after the context is built: the four
detectors in source order, first match wins. -/
def validateSignalFromContext (symbol : String) (context : SignalContext)
    (r1 r2 : ℚ) : Option Signal :=
  match detectRSIConfluenceSignal symbol context r1 r2 with
  | some s => some s
  | none =>
    match detectReversalSignal symbol context r1 r2 with
    | some s => some s
    | none =>
      match detectTrendSignal symbol context r1 r2 with
      | some s => some s
      | none => detectDivergenceSignal symbol context r1 r2

/-! ## Context building (SignalValidatorService.buildSignalContext) -/

/-- Cached market snapshot for a symbol (MarketData interface, numeric fields). -/
structure MarketData where
  price : ℚ
  volume24h : ℚ
  deriving Repr, DecidableEq

/-- Cached funding snapshot for a symbol (FundingData interface, numeric fields). -/
structure FundingData where
  symbol : String
  fundingRate : ℚ
  fundingRateTimestamp : ℤ
  nextFundingTime : ℤ
  deriving Repr, DecidableEq

/-- The point reads buildSignalContext makes against the market store and
funding tracker for one evaluation of one symbol. -/
structure MarketView where
  marketData : Option MarketData
  fundingData : Option FundingData
  priceHistory : List ℚ
  fundingDelta : ℚ
  btcMarketData : Option MarketData
  btcFundingData : Option FundingData
  enableBtcContext : Bool
  deriving Repr, DecidableEq

/-- The full context construction shared by the gated and ungated paths:
indicators from the price history (with the `|| null` zero coercion), the
funding delta, and the optional BTC context. -/
def buildContextFull (mv : MarketView) (md : MarketData) (fd : FundingData) :
    SignalContext :=
  let indicators := calculateAllIndicators mv.priceHistory
  let btcContext : Option (ℚ × ℚ) :=
    if mv.enableBtcContext then
      match mv.btcMarketData, mv.btcFundingData with
      | some bm, some bf => some (bm.price, bf.fundingRate)
      | _, _ => none
    else none
  { fundingRate := fd.fundingRate
    fundingDelta := mv.fundingDelta
    rsi := orUndefined indicators.rsi
    price := md.price
    volume24h := md.volume24h
    momentum := orUndefined indicators.momentum
    btcContext := btcContext }

/-- SignalValidatorService.buildSignalContext, including the early-exit
gate. When the absolute funding rate is below 0.01 the source tests
`indicators.rsi === null || (indicators.rsi <= 75 && indicators.rsi >= 25)`
and aborts when that holds. calculateAllIndicators yields undefined (never
null) for a missing or zero RSI, strict equality of undefined with null is
false, and both NaN comparisons are false, so an undefined RSI falls
through to the full build: the gate aborts exactly when the reported RSI
is a number inside [25, 75]. -/
def buildSignalContext (mv : MarketView) : Option SignalContext :=
  match mv.marketData, mv.fundingData with
  | some md, some fd =>
    if mv.priceHistory.length < 20 then none
    else if |fd.fundingRate| < 0.01 then
      match (calculateAllIndicators mv.priceHistory).rsi with
      | none => some (buildContextFull mv md fd)
      | some r =>
          if r ≤ 75 ∧ 25 ≤ r then none
          else some (buildContextFull mv md fd)
    else some (buildContextFull mv md fd)
  | _, _ => none

/-- Modelled from the spec: the context builder with the early-exit gate
removed, the baseline of the early-exit-equivalence property. It is
buildSignalContext without the funding/RSI gate branch. -/
def buildSignalContextNoGate (mv : MarketView) : Option SignalContext :=
  match mv.marketData, mv.fundingData with
  | some md, some fd =>
    if mv.priceHistory.length < 20 then none
    else some (buildContextFull mv md fd)
  | _, _ => none

/-- SignalValidatorService.validateSignal: build the context, then run the
rule chain. -/
def validateSignal (symbol : String) (mv : MarketView) (r1 r2 : ℚ) : Option Signal :=
  match buildSignalContext mv with
  | some context => validateSignalFromContext symbol context r1 r2
  | none => none

/-- Modelled from the spec: validateSignal with the early-exit gate removed. -/
def validateSignalNoGate (symbol : String) (mv : MarketView) (r1 r2 : ℚ) : Option Signal :=
  match buildSignalContextNoGate mv with
  | some context => validateSignalFromContext symbol context r1 r2
  | none => none

/-! ## Market state store (MarketDataService and FundingStreamService) -/

/-- Append one element and evict the oldest when the capacity is exceeded,
as push followed by a conditional shift. -/
def pushCapped {α : Type} (cap : ℕ) (l : List α) (x : α) : List α :=
  if cap < (l ++ [x]).length then (l ++ [x]).tail else l ++ [x]

/-- The rolling per-symbol series owned by the market state store: the
close-price history (MarketDataService.priceHistoryCache) and the funding
history (FundingStreamService.fundingHistory). A map miss reads as the
empty list, mirroring `get(...) || []`. -/
structure MarketStore where
  priceHistoryCache : String → List ℚ
  fundingHistory : String → List FundingData
  deriving Inhabited

/-- MarketDataService.updatePriceHistory: append the price, keep the last 100. -/
def updatePriceHistory (st : MarketStore) (symbol : String) (price : ℚ) : MarketStore :=
  { st with
    priceHistoryCache := fun s =>
      if s = symbol then pushCapped 100 (st.priceHistoryCache symbol) price
      else st.priceHistoryCache s }

/-- FundingStreamService.processFundingUpdate restricted to its history
mutation: append the snapshot, keep the last 10. The delta/velocity
emission does not touch the stored history. -/
def processFundingUpdate (st : MarketStore) (data : FundingData) : MarketStore :=
  { st with
    fundingHistory := fun s =>
      if s = data.symbol then pushCapped 10 (st.fundingHistory data.symbol) data
      else st.fundingHistory s }

/-- One ingest event: a ticker price update or a funding update. -/
inductive Ingest
  | ticker (symbol : String) (price : ℚ)
  | funding (data : FundingData)

/-- Apply one ingest event to the store. -/
def applyIngest (st : MarketStore) : Ingest → MarketStore
  | .ticker symbol price => updatePriceHistory st symbol price
  | .funding data => processFundingUpdate st data

/-- Apply a sequence of ingest events, oldest first. -/
def runIngests (st : MarketStore) (events : List Ingest) : MarketStore :=
  events.foldl applyIngest st

/-! ## Dispatch governor and orchestration (SignalService) -/

/-- The in-memory governor state: the cooldown map (association list in
insertion order, as a JS Map), and the global hourly window. -/
structure GovernorState where
  inMemoryCooldowns : List (String × ℤ)
  rateCount : ℕ
  rateResetTime : ℤ
  deriving Repr, DecidableEq

/-- JS Map.set: overwrite in place when the key exists, append otherwise. -/
def setAssoc (l : List (String × ℤ)) (k : String) (v : ℤ) : List (String × ℤ) :=
  if (l.lookup k).isSome then
    l.map (fun p => if p.1 = k then (k, v) else p)
  else l ++ [(k, v)]

/-- SignalService.isInCooldown on the in-memory fallback path; the check
`cooldownEnd && cooldownEnd > Date.now()` is falsy on an expiry of 0. -/
def isInCooldown (st : GovernorState) (symbol : String) (now : ℤ) : Bool :=
  match st.inMemoryCooldowns.lookup symbol with
  | some cooldownEnd => if cooldownEnd = 0 then false else decide (now < cooldownEnd)
  | none => false

/-- SignalService.setCooldown on the in-memory path: record the expiry,
then drop expired entries once the map exceeds 1000 entries. -/
def setCooldown (st : GovernorState) (symbol : String) (now : ℤ)
    (cooldownSeconds : ℤ) : GovernorState :=
  let m := setAssoc st.inMemoryCooldowns symbol (now + cooldownSeconds * 1000)
  let m := if 1000 < m.length then m.filter (fun p => decide (now ≤ p.2)) else m
  { st with inMemoryCooldowns := m }

/-- SignalService.isRateLimited on the in-memory path. The check also
rolls the window over, so it returns the possibly-reset state. -/
def isRateLimited (st : GovernorState) (now : ℤ) (maxAlertsPerHour : ℕ) :
    Bool × GovernorState :=
  let st :=
    if st.rateResetTime < now then
      { st with rateCount := 0, rateResetTime := now + 3600000 }
    else st
  (decide (maxAlertsPerHour ≤ st.rateCount), st)

/-- SignalService.incrementRateLimit on the in-memory path. -/
def incrementRateLimit (st : GovernorState) (now : ℤ) : GovernorState :=
  let st :=
    if st.rateResetTime < now then
      { st with rateCount := 0, rateResetTime := now + 3600000 }
    else st
  { st with rateCount := st.rateCount + 1 }

/-- Whether the external notification sink accepted the payload. -/
inductive SinkOutcome
  | delivered
  | failed
  deriving Repr, DecidableEq

/-- DiscordAlertService.sendViaWebhook: the POST either succeeds or raises. -/
def sendViaWebhook (outcome : SinkOutcome) : Except String Unit :=
  match outcome with
  | .delivered => .ok ()
  | .failed => .error "webhook delivery failed"

/-- DiscordAlertService.sendAlert: the delivery is wrapped in a try/catch
that logs the failure and does not rethrow, so the caller never observes a
sink error. -/
def sendAlert (outcome : SinkOutcome) : Except String Unit :=
  match sendViaWebhook outcome with
  | .ok u => .ok u
  | .error _ => .ok ()

/-- SignalService.processSymbol on the in-memory governor path: cooldown
check, rate-limit check, validation, threshold check, best-effort
persistence (which does not touch governor state), sink delivery, then
cooldown set and rate-limit increment. The error branch after sendAlert
mirrors the enclosing try/catch, which would leave the governor state
unchanged if delivery errors escaped. -/
def processSymbol (st : GovernorState) (symbol : String) (mv : MarketView)
    (r1 r2 : ℚ) (now : ℤ) (cooldownSeconds : ℤ) (maxAlertsPerHour : ℕ)
    (sink : SinkOutcome) : GovernorState :=
  if isInCooldown st symbol now then st
  else
    let (limited, st1) := isRateLimited st now maxAlertsPerHour
    if limited then st1
    else
      match validateSignal symbol mv r1 r2 with
      | none => st1
      | some signal =>
        if !meetsThreshold signal.score then st1
        else
          match sendAlert sink with
          | .error _ => st1
          | .ok _ => incrementRateLimit (setCooldown st1 symbol now cooldownSeconds) now

/-! ## Universe loader (BybitService.loadUsdtPerpetualPairs) -/

/-- One instrument row from the instruments-info endpoint. -/
structure Instrument where
  symbol : String
  settleCoin : String
  status : String
  deriving Repr, DecidableEq

/-- One ticker row from the bulk tickers endpoint. Numeric string fields
are already parsed to rationals (parseFloat with default 0); the funding
rate stays a raw optional string because the loader only tests presence
and non-emptiness. -/
structure TickerRow where
  symbol : String
  turnover24h : ℚ
  openInterestValue : ℚ
  openInterest : ℚ
  lastPrice : ℚ
  fundingRate : Option String
  deriving Repr, DecidableEq

/-- An exchange REST response: a status code plus a payload list. A thrown
transport error is the `Except.error` case of the caller. -/
structure ApiResponse (α : Type) where
  retCode : ℤ
  list : List α
  deriving Repr, DecidableEq

/-- Filter configuration for the universe loader. -/
structure FilterConfig where
  minVolume24h : ℚ
  minOpenInterest : ℚ
  minPrice : ℚ
  maxPrice : ℚ
  blacklist : List String
  deriving Repr, DecidableEq

/-- Ticker lookup in the symbol-keyed map the loader builds; a later row
with the same symbol overwrites an earlier one. -/
def lookupTicker (tickers : List TickerRow) (symbol : String) : Option TickerRow :=
  tickers.reverse.find? (fun t => t.symbol = symbol)

/-- The per-instrument quality filters of the loader. -/
def passesFilters (cfg : FilterConfig) (t : TickerRow) : Bool :=
  let passesVolume := decide (cfg.minVolume24h ≤ t.turnover24h)
  let passesOI := decide (cfg.minOpenInterest ≤ t.openInterestValue)
    || (decide (t.openInterestValue = 0)
        && decide (cfg.minOpenInterest / 1000 ≤ t.openInterest))
  let passesPrice := decide (cfg.minPrice ≤ t.lastPrice) && decide (t.lastPrice ≤ cfg.maxPrice)
  let hasFundingData :=
    match t.fundingRate with
    | some s => s ≠ ""
    | none => false
  passesVolume && passesOI && passesPrice && hasFundingData

/-- The filtering loop of the loader over the pre-filtered instrument
list: skip instruments with no ticker row, then blacklist, then quality
thresholds. -/
def applyFilters (cfg : FilterConfig) (instruments : List Instrument)
    (tickers : List TickerRow) : List String :=
  instruments.filterMap (fun i =>
    match lookupTicker tickers i.symbol with
    | none => none
    | some t =>
        if cfg.blacklist.contains i.symbol.toUpper then none
        else if passesFilters cfg t then some i.symbol
        else none)

/-- BybitService.loadUsdtPerpetualPairs as a function of the two REST
outcomes. A thrown instruments call, a non-success instruments status, and
a thrown tickers call all reach the enclosing catch, which rethrows; only
a non-success tickers status degrades to the unfiltered instrument list. -/
def loadUsdtPerpetualPairs (cfg : FilterConfig)
    (instrumentsResponse : Except String (ApiResponse Instrument))
    (tickersResponse : Except String (ApiResponse TickerRow)) :
    Except String (List String) :=
  match instrumentsResponse with
  | .error e => .error e
  | .ok ir =>
    if ir.retCode ≠ 0 then .error "Bybit API error"
    else
      let allInstruments := ir.list.filter (fun i =>
        i.settleCoin = "USDT" && i.status = "Trading")
      match tickersResponse with
      | .error e => .error e
      | .ok tr =>
        if tr.retCode ≠ 0 then .ok (allInstruments.map (fun i => i.symbol))
        else .ok (applyFilters cfg allInstruments tr.list)

/-! ## Helper lemmas -/

theorem initialAverages_nonneg (period : ℕ) (diffs : List ℚ) :
    0 ≤ (initialAverages period diffs).1 ∧ 0 ≤ (initialAverages period diffs).2 := by
  unfold initialAverages
  refine ⟨div_nonneg ?_ (Nat.cast_nonneg period), div_nonneg ?_ (Nat.cast_nonneg period)⟩
  · apply List.sum_nonneg
    intro x hx
    simp only [List.mem_map] at hx
    obtain ⟨c, _, rfl⟩ := hx
    split
    · linarith
    · exact le_rfl
  · apply List.sum_nonneg
    intro x hx
    simp only [List.mem_map] at hx
    obtain ⟨c, _, rfl⟩ := hx
    split
    · exact le_rfl
    · exact abs_nonneg c

theorem wilderStep_nonneg (period : ℕ) (hp : 1 ≤ period) (acc : ℚ × ℚ) (c : ℚ)
    (h1 : 0 ≤ acc.1) (h2 : 0 ≤ acc.2) :
    0 ≤ (wilderStep period acc c).1 ∧ 0 ≤ (wilderStep period acc c).2 := by
  have hper : (0:ℚ) ≤ (period : ℚ) - 1 := by
    have : (1:ℚ) ≤ (period : ℚ) := by exact_mod_cast hp
    linarith
  unfold wilderStep
  constructor
  · apply div_nonneg _ (Nat.cast_nonneg period)
    have : (0:ℚ) ≤ if 0 < c then c else 0 := by split <;> linarith
    nlinarith
  · apply div_nonneg _ (Nat.cast_nonneg period)
    have : (0:ℚ) ≤ if c < 0 then |c| else 0 := by
      split
      · exact abs_nonneg c
      · linarith
    nlinarith

theorem foldl_wilderStep_nonneg (period : ℕ) (hp : 1 ≤ period) :
    ∀ (l : List ℚ) (acc : ℚ × ℚ), 0 ≤ acc.1 → 0 ≤ acc.2 →
      0 ≤ (l.foldl (wilderStep period) acc).1 ∧ 0 ≤ (l.foldl (wilderStep period) acc).2 := by
  intro l
  induction l with
  | nil => intro acc h1 h2; exact ⟨h1, h2⟩
  | cons c cs ih =>
      intro acc h1 h2
      have hstep := wilderStep_nonneg period hp acc c h1 h2
      simpa using ih (wilderStep period acc c) hstep.1 hstep.2

theorem wilderAverages_nonneg (prices : List ℚ) (period : ℕ) (hp : 1 ≤ period) :
    0 ≤ (wilderAverages prices period).1 ∧ 0 ≤ (wilderAverages prices period).2 := by
  unfold wilderAverages
  have hinit := initialAverages_nonneg period (diffList prices)
  exact foldl_wilderStep_nonneg period hp _ _ hinit.1 hinit.2

theorem round2_bounds (x : ℚ) (h0 : 0 ≤ x) (h1 : x ≤ 100) :
    0 ≤ round2 x ∧ round2 x ≤ 100 := by
  unfold round2 jsRound
  constructor
  · apply div_nonneg _ (by norm_num : (0:ℚ) ≤ 100)
    have : (0:ℤ) ≤ ⌊x * 100 + 1/2⌋ := by
      apply Int.floor_nonneg.mpr
      nlinarith
    exact_mod_cast this
  · rw [div_le_iff₀ (by norm_num : (0:ℚ) < 100)]
    have : ⌊x * 100 + 1/2⌋ < 10001 := by
      apply Int.floor_lt.mpr
      push_cast
      nlinarith
    have h2 : ⌊x * 100 + 1/2⌋ ≤ 10000 := by omega
    calc ((⌊x * 100 + 1/2⌋ : ℚ)) ≤ 10000 := by exact_mod_cast h2
    _ = 100 * 100 := by norm_num

/-! ## Claim C7 -/

/-- Claim C7: for every price series and period at least 1, RSI is none
exactly on series shorter than period+1; a defined RSI lies in [0, 100]
and is a two-decimal value; and a zero Wilder average loss on a long
enough series yields exactly 100. -/
theorem c7_rsi_properties (prices : List ℚ) (period : ℕ) (hp : 1 ≤ period) :
    (calculateRSI prices period = none ↔ prices.length < period + 1)
    ∧ (∀ r, calculateRSI prices period = some r →
        0 ≤ r ∧ r ≤ 100 ∧ ∃ n : ℤ, r = (n : ℚ) / 100)
    ∧ ((wilderAverages prices period).2 = 0 → ¬ prices.length < period + 1 →
        calculateRSI prices period = some 100) := by
  refine ⟨?_, ?_, ?_⟩
  · unfold calculateRSI
    split_ifs with h h2 <;> simp [h]
  · intro r hr
    unfold calculateRSI at hr
    split_ifs at hr with h h2
    · cases hr
      exact ⟨by norm_num, by norm_num, ⟨10000, by norm_num⟩⟩
    · cases hr
      have hav := wilderAverages_nonneg prices period hp
      have hpos : 0 < (wilderAverages prices period).2 :=
        lt_of_le_of_ne hav.2 (Ne.symm h2)
      have hrs : 0 ≤ (wilderAverages prices period).1 / (wilderAverages prices period).2 :=
        div_nonneg hav.1 hav.2
      set rs := (wilderAverages prices period).1 / (wilderAverages prices period).2 with hrsdef
      have hquot_pos : 0 < 100 / (1 + rs) := by positivity
      have hquot_le : 100 / (1 + rs) ≤ 100 := div_le_self (by norm_num) (by linarith)
      have hbound := round2_bounds (100 - 100 / (1 + rs)) (by linarith) (by linarith)
      exact ⟨hbound.1, hbound.2, ⟨⌊(100 - 100 / (1 + rs)) * 100 + 1/2⌋, rfl⟩⟩
  · intro hz hlen
    unfold calculateRSI
    rw [if_neg hlen, if_pos hz]

/-- Claim C7 witness: the properties at the default period 14 on a
concrete 20-point series. -/
theorem c7_rsi_properties_witness :
    (1 ≤ 14)
    ∧ (calculateRSI [(100:ℚ), 101, 100, 99, 98, 97, 96, 95, 94, 93, 92, 91, 90, 89, 88, 87, 86, 85, 84, 83] 14 = none
        ↔ ([(100:ℚ), 101, 100, 99, 98, 97, 96, 95, 94, 93, 92, 91, 90, 89, 88, 87, 86, 85, 84, 83] : List ℚ).length < 14 + 1) :=
  ⟨by norm_num,
   (c7_rsi_properties [(100:ℚ), 101, 100, 99, 98, 97, 96, 95, 94, 93, 92, 91, 90, 89, 88, 87, 86, 85, 84, 83] 14 (by norm_num)).1⟩

/-! ## Claim C10 -/

/-- Claim C10: a computed RSI or momentum of exactly 0 is coerced to the
missing value by calculateAllIndicators and by the context builder, so no
RSI-gated rule can fire and the RSI/momentum sub-score falls back to the
neutral 50: zero values are indistinguishable from absent data. -/
theorem c10_zero_coercion :
    (∀ prices : List ℚ, calculateRSI prices 14 = some 0 →
        (calculateAllIndicators prices).rsi = none)
    ∧ (∀ prices : List ℚ, calculateMomentum prices 10 = some 0 →
        (calculateAllIndicators prices).momentum = none)
    ∧ (∀ (mv : MarketView) (ctx : SignalContext), buildSignalContext mv = some ctx →
        calculateRSI mv.priceHistory 14 = some 0 → ctx.rsi = none)
    ∧ (∀ (symbol : String) (ctx : SignalContext) (r1 r2 : ℚ), ctx.rsi = none →
        detectRSIConfluenceSignal symbol ctx r1 r2 = none
          ∧ detectReversalSignal symbol ctx r1 r2 = none)
    ∧ (∀ m : Option ℚ, scoreRSIMomentum none m = 50) := by
  refine ⟨?_, ?_, ?_, ?_, ?_⟩
  · intro prices h
    simp [calculateAllIndicators, orUndefined, h]
  · intro prices h
    simp [calculateAllIndicators, orUndefined, h]
  · intro mv ctx hctx hrsi
    have hnone : (calculateAllIndicators mv.priceHistory).rsi = none := by
      simp [calculateAllIndicators, orUndefined, hrsi]
    unfold buildSignalContext at hctx
    cases hmk : mv.marketData with
    | none => rw [hmk] at hctx; cases hctx
    | some md =>
      cases hfd : mv.fundingData with
      | none => rw [hmk, hfd] at hctx; cases hctx
      | some fd =>
        simp only [hmk, hfd] at hctx
        by_cases hlen : mv.priceHistory.length < 20
        · rw [if_pos hlen] at hctx
          cases hctx
        · rw [if_neg hlen] at hctx
          by_cases habs : |fd.fundingRate| < 0.01
          · rw [if_pos habs, hnone] at hctx
            cases hctx
            simp [buildContextFull, orUndefined, hnone]
          · rw [if_neg habs] at hctx
            cases hctx
            simp [buildContextFull, orUndefined, hnone]
  · intro symbol ctx r1 r2 hrsi
    constructor
    · unfold detectRSIConfluenceSignal
      rw [hrsi]
      simp [optTest]
    · unfold detectReversalSignal
      rw [hrsi]
      simp [optTest]
  · intro m
    rfl

/-- A 20-point close series of flat prices with a single final drop: its
Wilder RSI is exactly 0. -/
def flatDropPrices : List ℚ :=
  [100, 100, 100, 100, 100, 100, 100, 100, 100, 100,
   100, 100, 100, 100, 100, 100, 100, 100, 100, 99]

/-- Claim C10 witness: the flat-then-drop series computes RSI exactly 0,
and the indicator engine reports it as missing. -/
theorem c10_zero_coercion_witness :
    calculateRSI flatDropPrices 14 = some 0
    ∧ (calculateAllIndicators flatDropPrices).rsi = none := by
  have h : calculateRSI flatDropPrices 14 = some 0 := by
    norm_num [flatDropPrices, calculateRSI, wilderAverages, diffList, initialAverages,
      wilderStep, round2, jsRound, List.foldl, List.take, List.map, List.sum, List.drop]
  exact ⟨h, c10_zero_coercion.1 flatDropPrices h⟩

/-! ## Rule-selection decomposition of the evaluator -/

/-- Which rule fires on a context, in source order: the conditions of the
four detectors with the createSignal payload factored out. -/
def selectRule (context : SignalContext) : Option (SignalType × SignalBias × FundingBias) :=
  if optTest (fun r => decide (75 < r)) context.rsi
      && decide (0.01 < context.fundingRate) then
    some (.REVERSAL, .SHORT, .longOvercrowded)
  else if optTest (fun r => decide (r < 30)) context.rsi
      && decide (context.fundingRate < -0.01) then
    some (.REVERSAL, .LONG, .shortOvercrowded)
  else if (decide (0.04 ≤ context.fundingRate)
      && optTest (fun r => decide (70 ≤ r)) context.rsi
      && optTest (fun m => decide (1 < m)) context.momentum)
      && decide (0 < context.fundingDelta) then
    some (.REVERSAL, .SHORT, .longOvercrowded)
  else if (decide (context.fundingRate ≤ -0.04)
      && optTest (fun r => decide (r ≤ 30)) context.rsi
      && optTest (fun m => decide (m < -1)) context.momentum)
      && decide (context.fundingDelta < 0) then
    some (.REVERSAL, .LONG, .shortOvercrowded)
  else if decide (0.005 ≤ context.fundingRate) && decide (context.fundingRate ≤ 0.02)
      && decide (0 < context.fundingDelta)
      && optTest (fun m => decide (0 < m)) context.momentum then
    some (.TREND, .LONG, .longOvercrowded)
  else if decide (context.fundingRate ≤ -0.005) && decide (-0.02 ≤ context.fundingRate)
      && decide (context.fundingDelta < 0)
      && optTest (fun m => decide (m < 0)) context.momentum then
    some (.TREND, .SHORT, .shortOvercrowded)
  else if optTest (fun m => decide (1 < m)) context.momentum
      && decide (context.fundingRate < -0.005) then
    some (.DIVERGENCE, .SHORT, .shortOvercrowded)
  else if optTest (fun m => decide (m < -1)) context.momentum
      && decide (0.005 < context.fundingRate) then
    some (.DIVERGENCE, .LONG, .longOvercrowded)
  else none

theorem validateSignalFromContext_eq_selectRule (symbol : String)
    (context : SignalContext) (r1 r2 : ℚ) :
    validateSignalFromContext symbol context r1 r2
      = (selectRule context).map
          (fun t => createSignal symbol t.1 t.2.1 context t.2.2 r1 r2) := by
  unfold validateSignalFromContext detectRSIConfluenceSignal detectReversalSignal
    detectTrendSignal detectDivergenceSignal selectRule
  split_ifs <;> rfl

/-- The context of end-to-end scenario 1: RSI 78, momentum +1.2, funding
+0.015 percent, delta +0.001, no BTC context. -/
def ctxShortConfluence : SignalContext :=
  { fundingRate := 0.015
    fundingDelta := 0.001
    rsi := some 78
    price := 1
    volume24h := 5000000
    momentum := some 1.2
    btcContext := none }

/-! ## Claim C2 -/

/-- Claim C2 counterexample: the same context evaluated with two different
pairs of random draws yields signals differing in the rsi15m field, so two
evaluations of the rule set are not identical in every field. -/
theorem c2_determinism_counterexample :
    validateSignalFromContext "FOOUSDT" ctxShortConfluence 0 0
      ≠ validateSignalFromContext "FOOUSDT" ctxShortConfluence (1/2) (1/2) := by
  have hsel : selectRule ctxShortConfluence
      = some (SignalType.REVERSAL, SignalBias.SHORT, FundingBias.longOvercrowded) := by
    norm_num [selectRule, ctxShortConfluence, optTest]
  have h1 : (validateSignalFromContext "FOOUSDT" ctxShortConfluence 0 0).map
      Signal.rsi15m = some (151/2) := by
    rw [validateSignalFromContext_eq_selectRule, hsel]
    norm_num [createSignal, ctxShortConfluence, clampRSI]
  have h2 : (validateSignalFromContext "FOOUSDT" ctxShortConfluence (1/2) (1/2)).map
      Signal.rsi15m = some 78 := by
    rw [validateSignalFromContext_eq_selectRule, hsel]
    norm_num [createSignal, ctxShortConfluence, clampRSI]
  intro heq
  rw [heq, h2] at h1
  have : (151 : ℚ)/2 = 78 := by
    simpa using h1.symm
  norm_num at this

/-- Jitter erasure: forget the two display-only randomly jittered RSI
fields of a signal. -/
def eraseJitter (s : Signal) : Signal :=
  { s with rsi15m := 0, rsi5m := 0 }

/-- Claim C2 amended: the evaluator is deterministic in every field except
the display-only rsi15m and rsi5m jitter fields; for a fixed context any
two evaluations agree after erasing those two fields. -/
theorem c2_determinism_amended (symbol : String) (context : SignalContext)
    (r1 r2 r1' r2' : ℚ) :
    (validateSignalFromContext symbol context r1 r2).map eraseJitter
      = (validateSignalFromContext symbol context r1' r2').map eraseJitter := by
  rw [validateSignalFromContext_eq_selectRule, validateSignalFromContext_eq_selectRule]
  cases selectRule context with
  | none => rfl
  | some t => simp [eraseJitter, createSignal]

/-! ## Claim C3 -/

/-- Claim C3 counterexample: scenario 1 emits a signal with momentum +1.2
whose reported up-movement is 1.2, not max(1.2, 2.0) = 2.0 as claimed. -/
theorem c3_movement_counterexample :
    (validateSignalFromContext "FOOUSDT" ctxShortConfluence 0 0).map
        (fun s => s.movement.up) = some (6/5)
    ∧ (6/5 : ℚ) ≠ max (6/5 : ℚ) 2 := by
  constructor
  · have hsel : selectRule ctxShortConfluence
        = some (SignalType.REVERSAL, SignalBias.SHORT, FundingBias.longOvercrowded) := by
      norm_num [selectRule, ctxShortConfluence, optTest]
    rw [validateSignalFromContext_eq_selectRule, hsel]
    norm_num [createSignal, ctxShortConfluence]
  · norm_num

/-- Claim C3 amended: for every emitted signal, with m the context
momentum coerced through `momentum || 0`, the up-movement is m when m is
positive and 2.0 otherwise, and the down-movement is the absolute momentum
when m is negative and 2.0 otherwise. -/
theorem c3_movement_amended (symbol : String) (context : SignalContext)
    (r1 r2 : ℚ) (s : Signal)
    (h : validateSignalFromContext symbol context r1 r2 = some s) :
    s.movement.up = (if 0 < context.momentum.getD 0 then context.momentum.getD 0 else 2)
    ∧ s.movement.down = (if context.momentum.getD 0 < 0 then -(context.momentum.getD 0) else 2) := by
  rw [validateSignalFromContext_eq_selectRule] at h
  cases hsel : selectRule context with
  | none => rw [hsel] at h; cases h
  | some t =>
    rw [hsel] at h
    simp only [Option.map_some'] at h
    cases h
    constructor
    · by_cases hm : 0 < context.momentum.getD 0
      · simp [createSignal, hm, abs_of_pos hm]
      · simp [createSignal, hm]
    · by_cases hm : context.momentum.getD 0 < 0
      · simp [createSignal, hm, abs_of_neg hm, abs_abs]
      · simp [createSignal, hm]

/-- Claim C3 amended witness: scenario 1 with draws 0, 0 emits a signal
and its movement evaluates per the amended formula. -/
theorem c3_movement_amended_witness :
    validateSignalFromContext "FOOUSDT" ctxShortConfluence 0 0
        = some (createSignal "FOOUSDT" SignalType.REVERSAL SignalBias.SHORT
            ctxShortConfluence FundingBias.longOvercrowded 0 0)
    ∧ (createSignal "FOOUSDT" SignalType.REVERSAL SignalBias.SHORT
        ctxShortConfluence FundingBias.longOvercrowded 0 0).movement.up
      = (if 0 < ctxShortConfluence.momentum.getD 0 then ctxShortConfluence.momentum.getD 0 else 2) := by
  have h : validateSignalFromContext "FOOUSDT" ctxShortConfluence 0 0
      = some (createSignal "FOOUSDT" SignalType.REVERSAL SignalBias.SHORT
          ctxShortConfluence FundingBias.longOvercrowded 0 0) := by
    rw [validateSignalFromContext_eq_selectRule]
    have hsel : selectRule ctxShortConfluence
        = some (SignalType.REVERSAL, SignalBias.SHORT, FundingBias.longOvercrowded) := by
      norm_num [selectRule, ctxShortConfluence, optTest]
    rw [hsel]
    rfl
  exact ⟨h, (c3_movement_amended "FOOUSDT" ctxShortConfluence 0 0 _ h).1⟩

/-! ## Claim C4 -/

/-- Claim C4 counterexample: on the scenario-1 context the scorer returns
66.0, not 58.0: the funding-extremity step maps the absolute funding rate
0.015 to sub-score 60 (so 60·40 + 55·20 + 100·20 + 60·10 + 50·10 over 100). -/
theorem c4_scenario1_counterexample :
    calculateScore ctxShortConfluence = 66 ∧ (66 : ℚ) ≠ 58 := by
  constructor
  · norm_num [calculateScore, ctxShortConfluence, scoreFundingExtremity, scoreFundingDelta,
      scoreRSIMomentum, scoreVolumeSpike, scoreBTCContext, round2, jsRound, abs_of_pos]
  · norm_num

/-- Claim C4 amended: on the scenario-1 context (RSI 78, momentum +1.2,
funding +0.015, delta +0.001, no BTC context) the evaluator emits a
REVERSAL SHORT signal with funding-bias LONG Overcrowded and momentum
label Expansion, scored 66.0, which is below the default threshold 75 and
is therefore not dispatched. -/
theorem c4_scenario1_amended (r1 r2 : ℚ) :
    (validateSignalFromContext "FOOUSDT" ctxShortConfluence r1 r2).map
        (fun s => (s.signalType, s.bias, s.fundingBias, s.momentum, s.score))
      = some (SignalType.REVERSAL, SignalBias.SHORT, FundingBias.longOvercrowded,
          MomentumLabel.Expansion, (66 : ℚ))
    ∧ meetsThreshold (66 : ℚ) = false := by
  constructor
  · have hsel : selectRule ctxShortConfluence
        = some (SignalType.REVERSAL, SignalBias.SHORT, FundingBias.longOvercrowded) := by
      norm_num [selectRule, ctxShortConfluence, optTest]
    rw [validateSignalFromContext_eq_selectRule, hsel]
    have hscore : calculateScore ctxShortConfluence = 66 := by
      norm_num [calculateScore, ctxShortConfluence, scoreFundingExtremity, scoreFundingDelta,
        scoreRSIMomentum, scoreVolumeSpike, scoreBTCContext, round2, jsRound, abs_of_pos]
    have hexh : isExhaustion ctxShortConfluence.rsi ctxShortConfluence.momentum = false := by
      norm_num [isExhaustion, ctxShortConfluence, abs_of_pos]
    simp [createSignal, hscore, hexh]
  · norm_num [meetsThreshold]

/-! ## Claim C6 -/

/-- Claim C6: the detectors run in the fixed order RSI Confluence,
Overextension Reversal, Trend, Divergence with the first match winning; in
particular, when both the RSI Confluence and the Overextension Reversal
conditions hold, the emitted signal is the one produced by the RSI
Confluence branch, of type REVERSAL. -/
theorem c6_rule_priority (symbol : String) (context : SignalContext) (r1 r2 : ℚ)
    (hconf : ∃ r, context.rsi = some r
      ∧ ((75 < r ∧ 0.01 < context.fundingRate) ∨ (r < 30 ∧ context.fundingRate < -0.01)))
    (_hover : ∃ r m, context.rsi = some r ∧ context.momentum = some m
      ∧ ((0.04 ≤ context.fundingRate ∧ 70 ≤ r ∧ 1 < m ∧ 0 < context.fundingDelta)
        ∨ (context.fundingRate ≤ -0.04 ∧ r ≤ 30 ∧ m < -1 ∧ context.fundingDelta < 0))) :
    validateSignalFromContext symbol context r1 r2
        = detectRSIConfluenceSignal symbol context r1 r2
    ∧ ∃ s, detectRSIConfluenceSignal symbol context r1 r2 = some s
        ∧ s.signalType = SignalType.REVERSAL := by
  obtain ⟨r, hr, hc⟩ := hconf
  have hd : ∃ s, detectRSIConfluenceSignal symbol context r1 r2 = some s
      ∧ s.signalType = SignalType.REVERSAL := by
    rcases hc with ⟨h75, hf⟩ | ⟨h30, hf⟩
    · refine ⟨createSignal symbol .REVERSAL .SHORT context .longOvercrowded r1 r2, ?_, rfl⟩
      unfold detectRSIConfluenceSignal
      rw [hr, if_pos]
      simp only [optTest, Bool.and_eq_true, decide_eq_true_eq]
      exact ⟨h75, hf⟩
    · refine ⟨createSignal symbol .REVERSAL .LONG context .shortOvercrowded r1 r2, ?_, rfl⟩
      unfold detectRSIConfluenceSignal
      rw [hr]
      rw [if_neg, if_pos]
      · simp only [optTest, Bool.and_eq_true, decide_eq_true_eq]
        exact ⟨h30, hf⟩
      · simp only [optTest, Bool.and_eq_true, decide_eq_true_eq, not_and]
        intro h75
        linarith
  obtain ⟨s, hs, hty⟩ := hd
  refine ⟨?_, ⟨s, hs, hty⟩⟩
  unfold validateSignalFromContext
  rw [hs]

/-- A context on which both the RSI Confluence SHORT conditions and the
Overextension Reversal SHORT conditions hold. -/
def ctxDoubleShort : SignalContext :=
  { fundingRate := 0.05
    fundingDelta := 0.001
    rsi := some 80
    price := 2
    volume24h := 3000000
    momentum := some 2.1
    btcContext := none }

/-- Claim C6 witness: both rule conditions hold on a concrete context and
the chain emits the RSI Confluence REVERSAL. -/
theorem c6_rule_priority_witness :
    validateSignalFromContext "BARUSDT" ctxDoubleShort 0 0
        = detectRSIConfluenceSignal "BARUSDT" ctxDoubleShort 0 0
    ∧ ∃ s, detectRSIConfluenceSignal "BARUSDT" ctxDoubleShort 0 0 = some s
        ∧ s.signalType = SignalType.REVERSAL :=
  c6_rule_priority "BARUSDT" ctxDoubleShort 0 0
    ⟨80, rfl, Or.inl ⟨by norm_num, by norm_num [ctxDoubleShort]⟩⟩
    ⟨80, 2.1, rfl, rfl, Or.inl
      ⟨by norm_num [ctxDoubleShort], by norm_num, by norm_num, by norm_num [ctxDoubleShort]⟩⟩

/-! ## Claim C5 -/

/-- A market view in the gate region: funding -0.007 (absolute value below
0.01), 20-point flat-then-drop history whose computed RSI is exactly 0
(and so extreme, below 25), with negative momentum and negative delta. The
zero RSI reaches the gate as undefined, which falls through to the full
build, and both the gated and ungated evaluators emit the same TREND
signal here. -/
def mvGateHole : MarketView :=
  { marketData := some { price := 99, volume24h := 2000000 }
    fundingData := some { symbol := "BARUSDT", fundingRate := -0.007, fundingRateTimestamp := 0, nextFundingTime := 0 }
    priceHistory := flatDropPrices
    fundingDelta := -0.001
    btcMarketData := none
    btcFundingData := none
    enableBtcContext := false }

/-- Claim C5: for every symbol with market and funding snapshots and at
least 20 history points, if the absolute funding rate is at least 0.01 or
the computed RSI is extreme (above 75 or below 25), then the gated
evaluator output equals the ungated output. An extreme RSI of exactly 0 is
reported to the gate as undefined, which falls through to the full build,
so the equivalence also covers it. -/
theorem c5_early_exit_equivalence (symbol : String) (mv : MarketView)
    (md : MarketData) (fd : FundingData) (r1 r2 : ℚ)
    (hmd : mv.marketData = some md) (hfd : mv.fundingData = some fd)
    (hlen : 20 ≤ mv.priceHistory.length)
    (hext : 0.01 ≤ |fd.fundingRate|
      ∨ ∃ r, calculateRSI mv.priceHistory 14 = some r ∧ (75 < r ∨ r < 25)) :
    validateSignal symbol mv r1 r2 = validateSignalNoGate symbol mv r1 r2 := by
  unfold validateSignal validateSignalNoGate buildSignalContext buildSignalContextNoGate
  simp only [hmd, hfd]
  rw [if_neg (not_lt.mpr hlen), if_neg (not_lt.mpr hlen)]
  rcases hext with h | ⟨r, hr, hrext⟩
  · rw [if_neg (not_lt.mpr h)]
  · by_cases habs : |fd.fundingRate| < 0.01
    · rw [if_pos habs]
      by_cases hz : r = 0
      · have hind : (calculateAllIndicators mv.priceHistory).rsi = none := by
          simp [calculateAllIndicators, orUndefined, hr, hz]
        simp only [hind]
      · have hind : (calculateAllIndicators mv.priceHistory).rsi = some r := by
          simp [calculateAllIndicators, orUndefined, hr, hz]
        simp only [hind]
        rw [if_neg]
        rintro ⟨hle, hge⟩
        rcases hrext with h75 | h25
        · linarith
        · linarith
    · rw [if_neg habs]

/-- Claim C5 witness: the equivalence at the concrete gate-region market
view whose computed RSI is exactly 0, the extremity case settled by the
undefined-falls-through gate semantics. -/
theorem c5_early_exit_equivalence_witness :
    calculateRSI mvGateHole.priceHistory 14 = some 0
    ∧ validateSignal "BARUSDT" mvGateHole 0 0
        = validateSignalNoGate "BARUSDT" mvGateHole 0 0 := by
  have hrsi : calculateRSI flatDropPrices 14 = some 0 := by
    norm_num [flatDropPrices, calculateRSI, wilderAverages, diffList,
      initialAverages, wilderStep, round2, jsRound, List.foldl, List.take, List.map,
      List.sum, List.drop]
  exact ⟨hrsi,
    c5_early_exit_equivalence "BARUSDT" mvGateHole _ _ 0 0 rfl rfl
      (by norm_num [mvGateHole, flatDropPrices])
      (Or.inr ⟨0, hrsi, Or.inr (by norm_num)⟩)⟩

/-! ## Claim C8 -/

theorem pushCapped_length_le {α : Type} (cap : ℕ) (l : List α) (x : α)
    (h : l.length ≤ cap) : (pushCapped cap l x).length ≤ cap := by
  unfold pushCapped
  split
  · simpa using h
  · next hc => simpa using Nat.le_of_not_lt hc

theorem pushCapped_suffix {α : Type} (cap : ℕ) (l : List α) (x : α) :
    (pushCapped cap l x) <:+ (l ++ [x]) := by
  unfold pushCapped
  split
  · exact (l ++ [x]).tail_suffix
  · exact List.suffix_refl _

theorem applyIngest_capacity (st : MarketStore) (e : Ingest)
    (h : ∀ s, (st.priceHistoryCache s).length ≤ 100 ∧ (st.fundingHistory s).length ≤ 10) :
    ∀ s, ((applyIngest st e).priceHistoryCache s).length ≤ 100
      ∧ ((applyIngest st e).fundingHistory s).length ≤ 10 := by
  intro s
  cases e with
  | ticker symbol price =>
    unfold applyIngest updatePriceHistory
    constructor
    · dsimp only
      split
      · exact pushCapped_length_le 100 _ _ (h symbol).1
      · exact (h s).1
    · exact (h s).2
  | funding data =>
    unfold applyIngest processFundingUpdate
    constructor
    · exact (h s).1
    · dsimp only
      split
      · exact pushCapped_length_le 10 _ _ (h data.symbol).2
      · exact (h s).2

theorem runIngests_capacity :
    ∀ (events : List Ingest) (st : MarketStore),
      (∀ s, (st.priceHistoryCache s).length ≤ 100 ∧ (st.fundingHistory s).length ≤ 10) →
      ∀ s, ((runIngests st events).priceHistoryCache s).length ≤ 100
        ∧ ((runIngests st events).fundingHistory s).length ≤ 10 := by
  intro events
  induction events with
  | nil => intro st h; exact h
  | cons e es ih =>
    intro st h
    exact ih (applyIngest st e) (applyIngest_capacity st e h)

/-- Claim C8: from any store within capacity, any interleaving of ticker
and funding ingests keeps every price series at length at most 100 and
every funding history at length at most 10; each single ingest leaves the
stored series a suffix of the old series with the new element appended, so
the oldest element is evicted on overflow and oldest-first order is kept. -/
theorem c8_series_capacity :
    (∀ (st : MarketStore) (events : List Ingest),
      (∀ s, (st.priceHistoryCache s).length ≤ 100 ∧ (st.fundingHistory s).length ≤ 10) →
      ∀ s, ((runIngests st events).priceHistoryCache s).length ≤ 100
        ∧ ((runIngests st events).fundingHistory s).length ≤ 10)
    ∧ (∀ (st : MarketStore) (symbol : String) (price : ℚ),
        ((updatePriceHistory st symbol price).priceHistoryCache symbol)
          <:+ (st.priceHistoryCache symbol ++ [price]))
    ∧ (∀ (st : MarketStore) (data : FundingData),
        ((processFundingUpdate st data).fundingHistory data.symbol)
          <:+ (st.fundingHistory data.symbol ++ [data])) := by
  refine ⟨fun st events h => runIngests_capacity events st h, ?_, ?_⟩
  · intro st symbol price
    unfold updatePriceHistory
    dsimp only
    rw [if_pos rfl]
    exact pushCapped_suffix 100 _ _
  · intro st data
    unfold processFundingUpdate
    dsimp only
    rw [if_pos rfl]
    exact pushCapped_suffix 10 _ _

/-- The empty market store. -/
def emptyStore : MarketStore :=
  { priceHistoryCache := fun _ => []
    fundingHistory := fun _ => [] }

/-- Claim C8 witness: the capacity bound after a concrete ingest sequence
from the empty store. -/
theorem c8_series_capacity_witness :
    ((runIngests emptyStore
        [Ingest.ticker "AAAUSDT" 5,
         Ingest.funding { symbol := "AAAUSDT", fundingRate := 0.01, fundingRateTimestamp := 0, nextFundingTime := 0 },
         Ingest.ticker "AAAUSDT" 6]).priceHistoryCache "AAAUSDT").length ≤ 100
    ∧ ((runIngests emptyStore
        [Ingest.ticker "AAAUSDT" 5,
         Ingest.funding { symbol := "AAAUSDT", fundingRate := 0.01, fundingRateTimestamp := 0, nextFundingTime := 0 },
         Ingest.ticker "AAAUSDT" 6]).fundingHistory "AAAUSDT").length ≤ 10 :=
  c8_series_capacity.1 emptyStore
    [Ingest.ticker "AAAUSDT" 5,
     Ingest.funding { symbol := "AAAUSDT", fundingRate := 0.01, fundingRateTimestamp := 0, nextFundingTime := 0 },
     Ingest.ticker "AAAUSDT" 6]
    (fun s => ⟨by simp [emptyStore], by simp [emptyStore]⟩) "AAAUSDT"

/-! ## Claim C1 -/

/-- Claim C1 amended: the governor state produced by processSymbol does
not depend on the sink outcome at all: because sendAlert catches and logs
delivery failures without rethrowing, the cooldown entry and the hourly
counter are written for every threshold-passing signal whether or not the
sink accepted the payload. -/
theorem c1_sink_insensitivity_amended (st : GovernorState) (symbol : String)
    (mv : MarketView) (r1 r2 : ℚ) (now : ℤ) (cooldownSeconds : ℤ)
    (maxAlertsPerHour : ℕ) (sink : SinkOutcome) :
    processSymbol st symbol mv r1 r2 now cooldownSeconds maxAlertsPerHour sink
      = processSymbol st symbol mv r1 r2 now cooldownSeconds maxAlertsPerHour
          SinkOutcome.delivered := by
  cases sink with
  | delivered => rfl
  | failed => rfl

/-- A 20-point close series with one early gain and a steady decline: RSI
is 4.93 and momentum -10.75, driving the overextension-style context on
extreme negative funding. -/
def declinePrices : List ℚ :=
  [100, 101, 100, 99, 98, 97, 96, 95, 94, 93,
   92, 91, 90, 89, 88, 87, 86, 85, 84, 83]

/-- A market view whose evaluation produces a REVERSAL LONG signal scoring
85, above the default threshold 75. -/
def mvOverextLong : MarketView :=
  { marketData := some { price := 83, volume24h := 1000000 }
    fundingData := some { symbol := "AAAUSDT", fundingRate := -0.05, fundingRateTimestamp := 0, nextFundingTime := 0 }
    priceHistory := declinePrices
    fundingDelta := -0.002
    btcMarketData := none
    btcFundingData := none
    enableBtcContext := false }

/-- The context built from mvOverextLong. -/
def ctxOverextLong : SignalContext :=
  { fundingRate := -0.05
    fundingDelta := -0.002
    rsi := some (493/100)
    price := 83
    volume24h := 1000000
    momentum := some (-1075/100)
    btcContext := none }

/-- The governor state at process start: no cooldowns, zero alerts, window
resetting one hour ahead. -/
def govInit : GovernorState :=
  { inMemoryCooldowns := []
    rateCount := 0
    rateResetTime := 3600000 }

/-- Claim C1 counterexample: a threshold-passing signal whose sink
delivery fails still sets the per-symbol cooldown and increments the
hourly counter, leaving the governor state changed, contrary to the
claimed atomicity. -/
theorem c1_atomicity_counterexample :
    (processSymbol govInit "AAAUSDT" mvOverextLong 0 0 0 300 20
        SinkOutcome.failed).rateCount = 1
    ∧ (processSymbol govInit "AAAUSDT" mvOverextLong 0 0 0 300 20
        SinkOutcome.failed).inMemoryCooldowns.lookup "AAAUSDT" = some 300000
    ∧ govInit.rateCount = 0
    ∧ govInit.inMemoryCooldowns.lookup "AAAUSDT" = none := by
  have hrsi : calculateRSI declinePrices 14 = some (493/100) := by
    norm_num [declinePrices, calculateRSI, wilderAverages, diffList, initialAverages,
      wilderStep, round2, jsRound, List.foldl, List.take, List.map, List.sum, List.drop]
  have hmom : calculateMomentum declinePrices 10 = some (-1075/100) := by
    norm_num [declinePrices, calculateMomentum, round2, jsRound, List.getD]
  have hbuild : buildSignalContext mvOverextLong = some ctxOverextLong := by
    unfold buildSignalContext
    simp only [mvOverextLong]
    rw [if_neg (by norm_num [declinePrices] : ¬ declinePrices.length < 20),
      if_neg (by rw [abs_of_neg (by norm_num : (-0.05:ℚ) < 0)]; norm_num)]
    simp [buildContextFull, mvOverextLong, calculateAllIndicators, orUndefined,
      hrsi, hmom, ctxOverextLong]
  have hsel : selectRule ctxOverextLong
      = some (SignalType.REVERSAL, SignalBias.LONG, FundingBias.shortOvercrowded) := by
    norm_num [selectRule, ctxOverextLong, optTest]
  have hscore : calculateScore ctxOverextLong = 85 := by
    norm_num [calculateScore, ctxOverextLong, scoreFundingExtremity, scoreFundingDelta,
      scoreRSIMomentum, scoreVolumeSpike, scoreBTCContext, round2, jsRound,
      abs_of_neg, abs_of_pos]
  have hval : validateSignal "AAAUSDT" mvOverextLong 0 0
      = some (createSignal "AAAUSDT" SignalType.REVERSAL SignalBias.LONG
          ctxOverextLong FundingBias.shortOvercrowded 0 0) := by
    unfold validateSignal
    rw [hbuild]
    show validateSignalFromContext "AAAUSDT" ctxOverextLong 0 0 = _
    rw [validateSignalFromContext_eq_selectRule, hsel]
    rfl
  have hscore2 : (createSignal "AAAUSDT" SignalType.REVERSAL SignalBias.LONG
      ctxOverextLong FundingBias.shortOvercrowded 0 0).score = 85 := by
    simp [createSignal, hscore]
  have hfinal : processSymbol govInit "AAAUSDT" mvOverextLong 0 0 0 300 20
      SinkOutcome.failed
      = { inMemoryCooldowns := [("AAAUSDT", 300000)], rateCount := 1,
          rateResetTime := 3600000 } := by
    unfold processSymbol
    rw [hval]
    norm_num [isInCooldown, govInit, List.lookup, isRateLimited, hscore2,
      meetsThreshold, sendAlert, sendViaWebhook, setCooldown, setAssoc,
      incrementRateLimit]
  rw [hfinal]
  refine ⟨rfl, by simp [List.lookup], rfl, rfl⟩

/-! ## Claim C9 -/

/-- The default filter configuration of the universe loader. -/
def cfgDefault : FilterConfig :=
  { minVolume24h := 1000000
    minOpenInterest := 500000
    minPrice := 0.0001
    maxPrice := 100000
    blacklist := [] }

/-- A one-instrument instruments-info response with success status. -/
def instrumentsOk : ApiResponse Instrument :=
  { retCode := 0
    list := [{ symbol := "BTCUSDT", settleCoin := "USDT", status := "Trading" }] }

/-- Claim C9 counterexample: a thrown (network) error on the bulk ticker
call propagates out of the loader as a fatal error instead of degrading to
the unfiltered instrument list, because the catch-all handler rethrows. -/
theorem c9_ticker_failure_counterexample :
    loadUsdtPerpetualPairs cfgDefault (Except.ok instrumentsOk)
        (Except.error "network timeout")
      = Except.error "network timeout"
    ∧ (Except.error "network timeout" : Except String (List String))
        ≠ Except.ok ["BTCUSDT"] := by
  constructor
  · rfl
  · intro h
    cases h

/-- Claim C9 amended: an instrument-fetch failure of either kind (thrown
error or non-success status) propagates as fatal; a thrown bulk-ticker
error also propagates as fatal; only a non-success bulk-ticker status
degrades gracefully to the unfiltered instrument list. -/
theorem c9_loader_failure_amended (cfg : FilterConfig) (e : String)
    (ir : ApiResponse Instrument) (tr : ApiResponse TickerRow) :
    (∀ tks, loadUsdtPerpetualPairs cfg (Except.error e) tks = Except.error e)
    ∧ (ir.retCode ≠ 0 →
        ∀ tks, loadUsdtPerpetualPairs cfg (Except.ok ir) tks
          = Except.error "Bybit API error")
    ∧ (ir.retCode = 0 →
        loadUsdtPerpetualPairs cfg (Except.ok ir) (Except.error e) = Except.error e)
    ∧ (ir.retCode = 0 → tr.retCode ≠ 0 →
        loadUsdtPerpetualPairs cfg (Except.ok ir) (Except.ok tr)
          = Except.ok ((ir.list.filter (fun i =>
              i.settleCoin = "USDT" && i.status = "Trading")).map (fun i => i.symbol))) := by
  refine ⟨?_, ?_, ?_, ?_⟩
  · intro tks
    rfl
  · intro h tks
    unfold loadUsdtPerpetualPairs
    dsimp only
    rw [if_pos h]
  · intro h
    unfold loadUsdtPerpetualPairs
    dsimp only
    rw [if_neg (by simp [h])]
  · intro h ht
    unfold loadUsdtPerpetualPairs
    dsimp only
    rw [if_neg (by simp [h]), if_pos ht]

/-- Claim C9 amended witness: concrete graceful degradation on a
non-success bulk-ticker status. -/
theorem c9_loader_failure_amended_witness :
    loadUsdtPerpetualPairs cfgDefault (Except.ok instrumentsOk)
        (Except.ok { retCode := 10001, list := [] })
      = Except.ok ["BTCUSDT"] :=
  ((c9_loader_failure_amended cfgDefault "unused" instrumentsOk
      { retCode := 10001, list := [] }).2.2.2 rfl (by norm_num)).trans (by rfl)

end FundingBot